import Mathlib

/-!
# PyWire Shell — verification of the embedding host

A shallow embedding of `src/rust/pywire_servo/src/lib.rs`: the command
mailbox payloads, the console-message bridge, the FFI host-boundary
functions, and the winit event-loop handlers (`resumed`, `window_event`,
`user_event`, `pump_servo`, `repaint`).

Conventions of the embedding:
* Rust `String`/`&str` values are Lean `String`s; `str::starts_with` and
  byte slicing at the length of an ASCII pattern are modelled on the
  character sequence (for an ASCII pattern the byte index equals the
  character index).
* Pointer/UTF-8 validity of a C string argument is modelled by `CText`:
  `null`, `valid s`, or `invalid lossy` (an invalid-UTF-8 buffer together
  with the string its lossy conversion yields).
* Pixel coordinates are stored exactly (`Int`); the source stores `f32`
  but only ever copies and compares the values the claims speak about.
* External side effects (GL calls, engine calls, window calls) are
  recorded as an ordered `List Effect` returned by each handler, and the
  handler's mutation of `AppState` is explicit state passing.
* The engine is opaque: whether `spin_event_loop` delivers a
  new-frame-ready notification during a pump is a Boolean parameter
  (`engineSignalsFrame`) of the handlers.
-/

namespace PyWire

/-- The reserved outbound console marker `"PW_MSG:"` (source line 106). -/
def PW_MSG_TAG : String := "PW_MSG:"

/-- Rust `str::starts_with`, modelled on the character sequence. -/
def starts_with (s pat : String) : Bool :=
  pat.data.isPrefixOf s.data

/-- `CString::new` fails exactly when the payload has an interior NUL
byte; in UTF-8 the zero byte occurs only as the character U+0000. -/
def containsNul (s : String) : Bool :=
  s.data.any (fun c => c == Char.ofNat 0)

/-- `PyWireWebViewDelegate::show_console_message` (source lines 104-119),
restricted to its observable callback behaviour: the list of payloads
delivered to the registered controller callback (`ON_EVENT_CALLBACK`) for
one console line.  The source checks the `"PW_MSG:"` marker, slices it
off, and invokes the callback only if it is registered and
`CString::new` succeeds on the remainder. -/
def show_console_message (callbackRegistered : Bool) (message : String) :
    List String :=
  if starts_with message PW_MSG_TAG then
    let payload := message.drop PW_MSG_TAG.length
    if callbackRegistered then
      if containsNul payload then [] else [payload]
    else []
  else []

/-- A C string argument crossing the host boundary: null, valid UTF-8,
or invalid UTF-8 paired with the result of its lossy conversion. -/
inductive CText where
  | null
  | valid (s : String)
  | invalid (lossy : String)
deriving DecidableEq, Repr

/-- `CStr::to_string_lossy` after the null check: `none` only for a null
pointer; invalid UTF-8 is converted lossily, never rejected. -/
def to_string_lossy : CText → Option String
  | CText.null => none
  | CText.valid s => some s
  | CText.invalid lossy => some lossy

/-- `CStr::to_str`: strict UTF-8 decoding, failing on invalid bytes. -/
def to_str : CText → Option String
  | CText.null => none
  | CText.valid s => some s
  | CText.invalid _ => none

/-- The mailbox payload `UserEvent` (source lines 34-40). -/
inductive UserEvent where
  | Wake
  | ExecuteJs (script : String)
  | SetTitle (title : String)
  | Resize (width height : Nat)
deriving DecidableEq, Repr

/-- State of the process-wide `PROXY` slot as seen by a host-boundary
call: not yet published by `pw_start_app`, or published with the event
loop still accepting events (`channelOpen`) or already shut down. -/
inductive ProxyState where
  | unpublished
  | published (channelOpen : Bool)
deriving DecidableEq, Repr

/-- `EventLoopProxy::send_event`: succeeds exactly when the loop is
still running; on success the command is enqueued. -/
def send_event (p : ProxyState) (e : UserEvent) : Option UserEvent :=
  match p with
  | ProxyState.published true => some e
  | _ => none

/-- `pw_execute_javascript` (source lines 447-465): returns the status
code and the command posted to the mailbox, if any. -/
def pw_execute_javascript (proxy : ProxyState) (script : CText) :
    Int × Option UserEvent :=
  match to_string_lossy script with
  | none => (-1, none)
  | some s =>
    match proxy with
    | ProxyState.unpublished => (-3, none)
    | ProxyState.published ok =>
      if ok then (0, some (UserEvent.ExecuteJs s)) else (-2, none)

/-- `pw_set_title` (source lines 467-485). -/
def pw_set_title (proxy : ProxyState) (title : CText) :
    Int × Option UserEvent :=
  match to_string_lossy title with
  | none => (-1, none)
  | some s =>
    match proxy with
    | ProxyState.unpublished => (-3, none)
    | ProxyState.published ok =>
      if ok then (0, some (UserEvent.SetTitle s)) else (-2, none)

/-- `pw_resize_window` (source lines 487-498): no text to validate. -/
def pw_resize_window (proxy : ProxyState) (width height : Nat) :
    Int × Option UserEvent :=
  match proxy with
  | ProxyState.unpublished => (-3, none)
  | ProxyState.published ok =>
    if ok then (0, some (UserEvent.Resize width height)) else (-2, none)

/-- A device-pixel point.  The source stores `f32` coordinates but only
copies them between events; they are modelled exactly as integers. -/
structure DevicePoint where
  x : Int
  y : Int
deriving DecidableEq, Repr

/-- `Point2D::origin()`. -/
def DevicePoint.origin : DevicePoint := ⟨0, 0⟩

/-- `winit::event::ElementState`. -/
inductive ElementState where
  | Pressed
  | Released
deriving DecidableEq, Repr

/-- `winit::event::MouseButton`. -/
inductive WMouseButton where
  | Left
  | Right
  | Middle
  | Back
  | Forward
  | Other (v : Nat)
deriving DecidableEq, Repr

/-- `servo::MouseButton`. -/
inductive ServoMouseButton where
  | Left
  | Right
  | Middle
  | Back
  | Forward
  | Other (v : Nat)
deriving DecidableEq, Repr

/-- `servo::MouseButtonAction`. -/
inductive MouseButtonAction where
  | Down
  | Up
deriving DecidableEq, Repr

/-- The `state` match of the `MouseInput` arm (source lines 351-354). -/
def buttonAction : ElementState → MouseButtonAction
  | ElementState.Pressed => MouseButtonAction.Down
  | ElementState.Released => MouseButtonAction.Up

/-- The `button` match of the `MouseInput` arm (source lines 355-362). -/
def servoButton : WMouseButton → ServoMouseButton
  | WMouseButton.Left => ServoMouseButton.Left
  | WMouseButton.Right => ServoMouseButton.Right
  | WMouseButton.Middle => ServoMouseButton.Middle
  | WMouseButton.Back => ServoMouseButton.Back
  | WMouseButton.Forward => ServoMouseButton.Forward
  | WMouseButton.Other v => ServoMouseButton.Other v

/-- `servo::WheelMode` (only `DeltaPixel` is ever produced here). -/
inductive WheelMode where
  | DeltaPixel
  | DeltaLine
deriving DecidableEq, Repr

/-- `servo::WheelDelta`. -/
structure WheelDelta where
  x : Int
  y : Int
  z : Int
  mode : WheelMode
deriving DecidableEq, Repr

/-- `winit::event::MouseScrollDelta` (coordinates modelled exactly). -/
inductive MouseScrollDelta where
  | LineDelta (x y : Int)
  | PixelDelta (x y : Int)
deriving DecidableEq, Repr

/-- The `MouseWheel` arm's delta computation (source lines 382-392):
line-unit deltas are scaled by the fixed constants
`LINE_WIDTH = LINE_HEIGHT = 76`, pixel-unit deltas pass through; both
are tagged `DeltaPixel` and carry `z = 0`. -/
def computeWheelDelta : MouseScrollDelta → WheelDelta
  | MouseScrollDelta.LineDelta x y => ⟨x * 76, y * 76, 0, WheelMode.DeltaPixel⟩
  | MouseScrollDelta.PixelDelta x y => ⟨x, y, 0, WheelMode.DeltaPixel⟩

/-- Keyboard-modifier state (`winit::keyboard::ModifiersState`), an
opaque bitset; `Default::default()` is `0`. -/
abbrev ModifiersState := Nat

/-- Modelled from the spec: the Input Translator
(`keyutils::keyboard_event_from_winit`, a module not part of this
repository slice) is a pure stateless mapping from the raw key event and
the current modifier state; it is modelled as recording exactly its two
inputs. -/
structure KeyboardEvent where
  raw : Nat
  modifiers : ModifiersState
deriving DecidableEq, Repr

/-- See `KeyboardEvent`. -/
def keyboard_event_from_winit (raw : Nat) (m : ModifiersState) :
    KeyboardEvent := ⟨raw, m⟩

/-- `servo::InputEvent` as constructed by the handlers. -/
inductive InputEvent where
  | MouseMove (p : DevicePoint)
  | MouseButton (action : MouseButtonAction) (button : ServoMouseButton)
      (p : DevicePoint)
  | Keyboard (k : KeyboardEvent)
  | Wheel (delta : WheelDelta) (p : DevicePoint)
deriving DecidableEq, Repr

/-- A physical window size (`winit::dpi::PhysicalSize`). -/
structure WindowSize where
  width : Nat
  height : Nat
deriving DecidableEq, Repr

/-- `winit::event::WindowEvent`, restricted to the arms the handler
matches; `Other` is the `_ => ()` arm. -/
inductive WindowEvent where
  | CloseRequested
  | Resized (size : WindowSize)
  | ScaleFactorChanged (scale : Int)
  | CursorMoved (x y : Int)
  | MouseInput (state : ElementState) (button : WMouseButton)
  | ModifiersChanged (m : ModifiersState)
  | KeyboardInput (raw : Nat)
  | MouseWheel (delta : MouseScrollDelta)
  | RedrawRequested
  | Other
deriving DecidableEq, Repr

/-- One observable external action of a handler, in order. -/
inductive Effect where
  | exitLoop
  | resizeWindowContext (s : WindowSize)
  | resizeWebview (s : WindowSize)
  | setHidpiScaleFactor (scale : Int)
  | notifyInput (e : InputEvent)
  | spinEngine
  | repaint
  | requestRedraw
  | evaluateJavascript (script : String)
  | setWindowTitle (t : String)
  | requestInnerSize (w h : Nat)
  | createWindow (title : String) (w : Nat) (h : Int)
  | showWebview
  | focusWebview
deriving DecidableEq, Repr

/-- `AppState` (source lines 133-146).  The five lazily-populated
`Option` fields are modelled by presence flags (the claims never inspect
the contained handles, only whether the `if let Some` guards fire). -/
structure AppState where
  hasServo : Bool
  hasWebview : Bool
  hasWindow : Bool
  hasWindowRenderingContext : Bool
  hasOffscreenRenderingContext : Bool
  needsRepaint : Bool
  initialUrl : String
  initialTitle : String
  initialWidth : Nat
  initialHeight : Int
  lastMousePosition : DevicePoint
  modifiersState : ModifiersState
  webviewUrl : Option String
deriving DecidableEq, Repr

/-- The `if let` guard of `AppState::repaint` (source line 163). -/
def canRepaint (s : AppState) : Bool :=
  s.hasWebview && s.hasWindowRenderingContext &&
    s.hasOffscreenRenderingContext && s.hasWindow

/-- `AppState::repaint` (source lines 162-198): a silent no-op unless
webview, both rendering contexts and the window all exist; otherwise one
make-current / paint / blit / present sequence, recorded as a single
`repaint` effect. -/
def repaintEffects (s : AppState) : List Effect :=
  if canRepaint s then [Effect.repaint] else []

/-- `PyWireWebViewDelegate::notify_new_frame_ready` (source lines
121-125): set the repaint-needed flag and request an OS redraw. -/
def notify_new_frame_ready (s : AppState) : AppState × List Effect :=
  ({ s with needsRepaint := true }, [Effect.requestRedraw])

/-- `AppState::pump_servo` (source lines 151-160): spin the engine if it
exists (during which the engine may deliver the new-frame notification,
modelled by `engineSignalsFrame`), then `needs_repaint.take()` and
repaint if the flag was set. -/
def pump_servo (engineSignalsFrame : Bool) (s : AppState) :
    AppState × List Effect :=
  let spinEffs := if s.hasServo then [Effect.spinEngine] else []
  let step :=
    if s.hasServo && engineSignalsFrame then notify_new_frame_ready s
    else (s, [])
  let s1 := step.1
  if s1.needsRepaint then
    ({ s1 with needsRepaint := false }, spinEffs ++ step.2 ++ repaintEffects s1)
  else
    (s1, spinEffs ++ step.2)

/-- The per-arm effect of `AppState::window_event` (source lines
313-412), before the trailing `pump_servo` call. -/
def window_event_effect (s : AppState) (event : WindowEvent) :
    AppState × List Effect :=
  match event with
  | WindowEvent.CloseRequested => (s, [Effect.exitLoop])
  | WindowEvent.Resized size =>
    (s, (if s.hasWindowRenderingContext then [Effect.resizeWindowContext size]
         else []) ++
        (if s.hasWebview then [Effect.resizeWebview size] else []))
  | WindowEvent.ScaleFactorChanged sf =>
    (s, if s.hasWebview then [Effect.setHidpiScaleFactor sf] else [])
  | WindowEvent.CursorMoved x y =>
    ({ s with lastMousePosition := ⟨x, y⟩ },
     if s.hasWebview then
       [Effect.notifyInput (InputEvent.MouseMove ⟨x, y⟩)]
     else [])
  | WindowEvent.MouseInput st button =>
    (s, if s.hasWebview then
          [Effect.notifyInput (InputEvent.MouseButton (buttonAction st)
            (servoButton button) s.lastMousePosition)]
        else [])
  | WindowEvent.ModifiersChanged m =>
    ({ s with modifiersState := m }, [])
  | WindowEvent.KeyboardInput raw =>
    (s, if s.hasWebview then
          [Effect.notifyInput (InputEvent.Keyboard
            (keyboard_event_from_winit raw s.modifiersState))]
        else [])
  | WindowEvent.MouseWheel delta =>
    (s, if s.hasWebview then
          [Effect.notifyInput (InputEvent.Wheel (computeWheelDelta delta)
            s.lastMousePosition)]
        else [])
  | WindowEvent.RedrawRequested => (s, repaintEffects s)
  | WindowEvent.Other => (s, [])

/-- `AppState::window_event` (source lines 312-416): apply the arm's
effect, then pump the engine — except `CloseRequested`, which calls
`event_loop.exit()` and returns early, skipping the pump. -/
def window_event (engineSignalsFrame : Bool) (s : AppState)
    (event : WindowEvent) : AppState × List Effect :=
  if event = WindowEvent.CloseRequested then
    window_event_effect s event
  else
    let step := window_event_effect s event
    let pump := pump_servo engineSignalsFrame step.1
    (pump.1, step.2 ++ pump.2)

/-- `AppState::user_event` (source lines 418-445): the mailbox drain.
Only `Wake` pumps the engine; the three other arms apply their effect
and return without a pump. -/
def user_event (engineSignalsFrame : Bool) (s : AppState)
    (event : UserEvent) : AppState × List Effect :=
  match event with
  | UserEvent.Wake => pump_servo engineSignalsFrame s
  | UserEvent.ExecuteJs script =>
    (s, if s.hasWebview then [Effect.evaluateJavascript script] else [])
  | UserEvent.SetTitle title =>
    (s, if s.hasWindow then [Effect.setWindowTitle title] else [])
  | UserEvent.Resize w h =>
    (s, if s.hasWindow then
          [Effect.requestInnerSize w h]
        else [])

/-- `AppState::resumed` (source lines 225-310), parameterised by the
external `Url::parse` (`parseUrl`, `none` on an unparsable string).  A
second activation while the window exists is a no-op; otherwise the
window, both rendering contexts, the engine and the webview are created
— the webview with `Url::parse(initial_url).unwrap_or(about:blank)` —
then one pump runs and a first redraw is requested. -/
def resumed (engineSignalsFrame : Bool)
    (parseUrl : String → Option String) (s : AppState) :
    AppState × List Effect :=
  if s.hasWindow then (s, [])
  else
    let url := match parseUrl s.initialUrl with
      | some u => u
      | none => "about:blank"
    let s1 : AppState :=
      { s with hasWindow := true, hasWindowRenderingContext := true,
               hasOffscreenRenderingContext := true, hasServo := true,
               hasWebview := true, webviewUrl := some url }
    let pump := pump_servo engineSignalsFrame s1
    (pump.1,
     [Effect.createWindow s.initialTitle s.initialWidth s.initialHeight,
      Effect.showWebview, Effect.focusWebview] ++ pump.2 ++
       [Effect.requestRedraw])

/-- `InitParams` (source lines 45-52): note `width: u32` but
`height: i32` in the source. -/
structure InitParams where
  title : CText
  url : CText
  width : Nat
  height : Int
  on_event_registered : Bool
deriving DecidableEq, Repr

/-- The title decode in `pw_start_app` (source lines 508-517): a null
pointer or invalid UTF-8 both fall back to `"PyWire Shell"`. -/
def decode_start_title (t : CText) : String :=
  match t with
  | CText.null => "PyWire Shell"
  | t =>
    match to_str t with
    | some s => s
    | none => "PyWire Shell"

/-- The URL decode in `pw_start_app` (source lines 519-528): a null
pointer or invalid UTF-8 both fall back to `"about:blank"`. -/
def decode_start_url (u : CText) : String :=
  match u with
  | CText.null => "about:blank"
  | u =>
    match to_str u with
    | some s => s
    | none => "about:blank"

/-- The `AppState` literal built by `pw_start_app` (source lines
557-570): no window, contexts, engine or webview yet; repaint flag
clear; mouse position at the origin; default modifier state. -/
def pw_start_app_initial_state (params : InitParams) : AppState :=
  { hasServo := false, hasWebview := false, hasWindow := false,
    hasWindowRenderingContext := false,
    hasOffscreenRenderingContext := false,
    needsRepaint := false,
    initialUrl := decode_start_url params.url,
    initialTitle := decode_start_title params.title,
    initialWidth := params.width, initialHeight := params.height,
    lastMousePosition := DevicePoint.origin,
    modifiersState := 0,
    webviewUrl := none }

/-- One event consumed by the running loop: an OS window event or a
drained mailbox command. -/
inductive LoopEvent where
  | win (e : WindowEvent)
  | user (e : UserEvent)
deriving DecidableEq, Repr

/-- Whether a loop event is a pointer-move. -/
def isCursorMove : LoopEvent → Bool
  | LoopEvent.win (WindowEvent.CursorMoved _ _) => true
  | _ => false

/-- Dispatch one loop event to the matching handler.  The Boolean is
the engine's new-frame signal for the pump this event triggers. -/
def step (engineSignalsFrame : Bool) (s : AppState) :
    LoopEvent → AppState × List Effect
  | LoopEvent.win e => window_event engineSignalsFrame s e
  | LoopEvent.user e => user_event engineSignalsFrame s e

/-- Run a trace of loop events, each paired with its engine signal. -/
def run (s : AppState) : List (Bool × LoopEvent) → AppState
  | [] => s
  | p :: rest => run (step p.1 s p.2).1 rest

/-- A fully initialised `Running`-state record, as produced by
`resumed`: every handle present, repaint flag clear. -/
def sampleRunningState : AppState :=
  { hasServo := true, hasWebview := true, hasWindow := true,
    hasWindowRenderingContext := true,
    hasOffscreenRenderingContext := true,
    needsRepaint := false, initialUrl := "about:blank",
    initialTitle := "PyWire Shell", initialWidth := 800,
    initialHeight := 600,
    lastMousePosition := DevicePoint.origin, modifiersState := 0,
    webviewUrl := some "about:blank" }

theorem starts_with_append (p t : String) : starts_with (p ++ t) p = true := by
  simp [starts_with]

theorem length_drop_append (p t : String) : (p ++ t).drop p.length = t := by
  apply String.ext
  rw [String.data_drop, String.data_append]
  exact List.drop_left p.data t.data

theorem show_console_message_tagged (b : Bool) (T : String) :
    show_console_message b (PW_MSG_TAG ++ T) =
      if b && !containsNul T then [T] else [] := by
  rw [show_console_message, if_pos (by simp [starts_with_append])]
  rw [length_drop_append]
  cases b <;> cases h : containsNul T <;> simp [h]

theorem pump_servo_state (f : Bool) (s : AppState) :
    (pump_servo f s).1 = { s with needsRepaint := false } := by
  cases s
  simp only [pump_servo, notify_new_frame_ready]
  split_ifs <;> simp_all

theorem pump_servo_spin_count (f : Bool) (s : AppState) :
    (pump_servo f s).2.count Effect.spinEngine =
      if s.hasServo then 1 else 0 := by
  simp only [pump_servo, notify_new_frame_ready, repaintEffects]
  split_ifs <;>
    simp_all [List.count_append, List.count_cons, List.count_nil]

theorem window_event_effect_spin_count (s : AppState) (ev : WindowEvent) :
    (window_event_effect s ev).2.count Effect.spinEngine = 0 := by
  cases ev <;>
    simp only [window_event_effect, repaintEffects] <;>
    (try split_ifs) <;>
    simp [List.count_append, List.count_cons, List.count_nil]

theorem window_event_effect_hasServo (s : AppState) (ev : WindowEvent) :
    (window_event_effect s ev).1.hasServo = s.hasServo := by
  cases ev <;> rfl

theorem window_event_effect_hasWebview (s : AppState) (ev : WindowEvent) :
    (window_event_effect s ev).1.hasWebview = s.hasWebview := by
  cases ev <;> rfl

theorem window_event_state (f : Bool) (s : AppState) (ev : WindowEvent)
    (hev : ev ≠ WindowEvent.CloseRequested) :
    (window_event f s ev).1 =
      { (window_event_effect s ev).1 with needsRepaint := false } := by
  rw [window_event, if_neg hev]
  exact pump_servo_state f _

theorem window_event_hasWebview (f : Bool) (s : AppState)
    (ev : WindowEvent) :
    (window_event f s ev).1.hasWebview = s.hasWebview := by
  by_cases h : ev = WindowEvent.CloseRequested
  · subst h; rfl
  · rw [window_event_state f s ev h]
    simpa using window_event_effect_hasWebview s ev

theorem window_event_lastMouse (f : Bool) (s : AppState)
    (ev : WindowEvent) (hev : ∀ a b, ev ≠ WindowEvent.CursorMoved a b) :
    (window_event f s ev).1.lastMousePosition = s.lastMousePosition := by
  by_cases h : ev = WindowEvent.CloseRequested
  · subst h; rfl
  · rw [window_event_state f s ev h]
    cases ev <;> first
      | rfl
      | exact absurd rfl (hev _ _)

theorem window_event_cursor_moved (f : Bool) (s : AppState) (x y : Int) :
    (window_event f s (WindowEvent.CursorMoved x y)).1.lastMousePosition =
      ⟨x, y⟩ := by
  rw [window_event_state f s _ (by simp)]
  rfl

theorem user_event_hasWebview (f : Bool) (s : AppState) (ue : UserEvent) :
    (user_event f s ue).1.hasWebview = s.hasWebview := by
  cases ue <;> simp [user_event, pump_servo_state]

theorem user_event_lastMouse (f : Bool) (s : AppState) (ue : UserEvent) :
    (user_event f s ue).1.lastMousePosition = s.lastMousePosition := by
  cases ue <;> simp [user_event, pump_servo_state]

theorem step_hasWebview (f : Bool) (s : AppState) (e : LoopEvent) :
    (step f s e).1.hasWebview = s.hasWebview := by
  cases e with
  | win we => exact window_event_hasWebview f s we
  | user ue => exact user_event_hasWebview f s ue

theorem step_lastMouse (f : Bool) (s : AppState) (e : LoopEvent)
    (he : isCursorMove e = false) :
    (step f s e).1.lastMousePosition = s.lastMousePosition := by
  cases e with
  | win we =>
    refine window_event_lastMouse f s we ?_
    intro a b hab
    subst hab
    simp [isCursorMove] at he
  | user ue => exact user_event_lastMouse f s ue

theorem run_hasWebview (tr : List (Bool × LoopEvent)) :
    ∀ s : AppState, (run s tr).hasWebview = s.hasWebview := by
  induction tr with
  | nil => intro s; rfl
  | cons p rest ih =>
    intro s
    rw [run, ih]
    exact step_hasWebview p.1 s p.2

theorem run_lastMouse (tr : List (Bool × LoopEvent))
    (hnm : ∀ p ∈ tr, isCursorMove p.2 = false) :
    ∀ s : AppState, (run s tr).lastMousePosition = s.lastMousePosition := by
  induction tr with
  | nil => intro s; rfl
  | cons p rest ih =>
    intro s
    rw [run, ih (fun q hq => hnm q (List.mem_cons_of_mem p hq))]
    exact step_lastMouse p.1 s p.2 (hnm p (List.mem_cons_self p rest))

theorem mouse_input_forwarded (g : Bool) (s : AppState)
    (st : ElementState) (b : WMouseButton) (hw : s.hasWebview = true) :
    Effect.notifyInput (InputEvent.MouseButton (buttonAction st)
        (servoButton b) s.lastMousePosition) ∈
      (window_event g s (WindowEvent.MouseInput st b)).2 := by
  rw [window_event, if_neg (by simp)]
  simp [window_event_effect, hw]

/-- C1 (counterexample): in a fully running state with an engine
present, draining a `SetTitle` mailbox command performs no engine pump
step at all — its whole effect is setting the window title — refuting
"every drained mailbox command ... unconditionally performs one engine
pump step ... for all four mailbox command variants". -/
theorem C1_counterexample :
    sampleRunningState.hasServo = true ∧
    (user_event false sampleRunningState
        (UserEvent.SetTitle "A")).2.count Effect.spinEngine = 0 ∧
    (user_event false sampleRunningState (UserEvent.SetTitle "A")).2 =
      [Effect.setWindowTitle "A"] := by
  decide

/-- C1 (amended): every OS window event except `CloseRequested` (which
exits early) applies its effect and then performs exactly one engine
pump step (when the engine exists); of the mailbox commands only `Wake`
pumps — its handling is exactly one pump — while `ExecuteScript`,
`SetTitle` and `Resize` apply their effect without a pump. -/
theorem C1_pump_discipline (f : Bool) (s : AppState) (ev : WindowEvent)
    (hev : ev ≠ WindowEvent.CloseRequested) (script title : String)
    (w h : Nat) :
    ((window_event f s ev).2.count Effect.spinEngine =
      if s.hasServo then 1 else 0) ∧
    ((window_event f s WindowEvent.CloseRequested).2.count
      Effect.spinEngine = 0) ∧
    (user_event f s UserEvent.Wake = pump_servo f s) ∧
    ((user_event f s (UserEvent.ExecuteJs script)).2.count
      Effect.spinEngine = 0) ∧
    ((user_event f s (UserEvent.SetTitle title)).2.count
      Effect.spinEngine = 0) ∧
    ((user_event f s (UserEvent.Resize w h)).2.count
      Effect.spinEngine = 0) := by
  refine ⟨?_, by rfl, by rfl, ?_, ?_, ?_⟩
  · rw [window_event, if_neg hev]
    simp only [List.count_append, window_event_effect_spin_count,
      pump_servo_spin_count, window_event_effect_hasServo, Nat.zero_add]
  · simp only [user_event]
    split_ifs <;> rfl
  · simp only [user_event]
    split_ifs <;> rfl
  · simp only [user_event]
    split_ifs <;> rfl

/-- C1 (witness). -/
theorem C1_pump_discipline_witness :
    ((window_event false sampleRunningState WindowEvent.Other).2.count
      Effect.spinEngine = if sampleRunningState.hasServo then 1 else 0) ∧
    ((window_event false sampleRunningState
      WindowEvent.CloseRequested).2.count Effect.spinEngine = 0) ∧
    (user_event false sampleRunningState UserEvent.Wake =
      pump_servo false sampleRunningState) ∧
    ((user_event false sampleRunningState
      (UserEvent.ExecuteJs "1")).2.count Effect.spinEngine = 0) ∧
    ((user_event false sampleRunningState
      (UserEvent.SetTitle "t")).2.count Effect.spinEngine = 0) ∧
    ((user_event false sampleRunningState
      (UserEvent.Resize 1 1)).2.count Effect.spinEngine = 0) :=
  C1_pump_discipline false sampleRunningState WindowEvent.Other
    (by decide) "1" "t" 1 1

/-- C2 (counterexample): a console line that is the reserved marker
followed by a payload with an interior NUL character produces no
callback invocation, refuting "for every engine console line ... the
registered controller callback is invoked exactly once with payload
exactly T". -/
theorem C2_counterexample :
    show_console_message true
        (PW_MSG_TAG ++ ("a" ++ String.singleton (Char.ofNat 0) ++ "b")) ≠
      ["a" ++ String.singleton (Char.ofNat 0) ++ "b"] := by
  decide

/-- C2 (amended): with the controller callback registered, a console
line equal to the reserved marker `"PW_MSG:"` followed by a payload
without interior NUL produces exactly one callback invocation carrying
exactly that payload; a line that does not start with the marker never
invokes the callback. -/
theorem C2_console_bridge (T msg : String) (b : Bool)
    (hT : containsNul T = false)
    (hmsg : starts_with msg PW_MSG_TAG = false) :
    show_console_message true (PW_MSG_TAG ++ T) = [T] ∧
    show_console_message b msg = [] := by
  constructor
  · rw [show_console_message_tagged, hT]
    rfl
  · rw [show_console_message, if_neg (by simp [hmsg])]

/-- C2 (witness). -/
theorem C2_console_bridge_witness :
    show_console_message true (PW_MSG_TAG ++ "hello") = ["hello"] ∧
    show_console_message true "a diagnostic line" = [] :=
  C2_console_bridge "hello" "a diagnostic line" true (by decide)
    (by decide)

/-- C3 (counterexample): `pw_execute_javascript` called with a non-null
but invalid-UTF-8 text argument does not return the invalid-input
status: the text is decoded lossily and the command is posted with
status 0, refuting "null pointer or malformed (invalid) text → the
designated distinct negative invalid-input status and no post". -/
theorem C3_counterexample :
    pw_execute_javascript (ProxyState.published true) (CText.invalid "x")
      = (0, some (UserEvent.ExecuteJs "x")) := by
  decide

/-- C3 (amended): a null text pointer makes `pw_execute_javascript` and
`pw_set_title` return the invalid-input status `-1` without posting any
command, whatever the mailbox state; a malformed (invalid-UTF-8) text
argument is instead decoded lossily and handled exactly like the valid
text its lossy conversion yields. -/
theorem C3_null_rejected (proxy : ProxyState) (lossy : String) :
    pw_execute_javascript proxy CText.null = (-1, none) ∧
    pw_set_title proxy CText.null = (-1, none) ∧
    pw_execute_javascript proxy (CText.invalid lossy) =
      pw_execute_javascript proxy (CText.valid lossy) ∧
    pw_set_title proxy (CText.invalid lossy) =
      pw_set_title proxy (CText.valid lossy) := by
  cases proxy <;>
    simp [pw_execute_javascript, pw_set_title, to_string_lossy]

/-- C4 (counterexample): `pw_execute_javascript` called with a null
pointer before the mailbox is published returns the invalid-input
status `-1`, not the not-ready status `-3` — the null check runs first —
refuting "for every call ... before publication the function returns
the designated not-ready status". -/
theorem C4_counterexample :
    pw_execute_javascript ProxyState.unpublished CText.null =
        (-1, none) ∧
    (-1 : Int) ≠ -3 := by
  decide

/-- C4 (amended): every `pw_execute_javascript` or `pw_set_title` call
with a non-null text argument (valid or invalid UTF-8), and every
`pw_resize_window` call, made before the mailbox proxy is published
returns the not-ready status `-3` and posts no command. -/
theorem C4_not_ready (t : String) (w h : Nat) :
    pw_execute_javascript ProxyState.unpublished (CText.valid t) =
      (-3, none) ∧
    pw_execute_javascript ProxyState.unpublished (CText.invalid t) =
      (-3, none) ∧
    pw_set_title ProxyState.unpublished (CText.valid t) = (-3, none) ∧
    pw_set_title ProxyState.unpublished (CText.invalid t) = (-3, none) ∧
    pw_resize_window ProxyState.unpublished w h = (-3, none) := by
  simp [pw_execute_javascript, pw_set_title, pw_resize_window,
    to_string_lossy]

/-- C5 (counterexample): with a null title pointer, the title
`pw_start_app` stores — and which `resumed` passes to the window — is
`"PyWire Shell"`, not `"untitled"`. -/
theorem C5_counterexample :
    (pw_start_app_initial_state
        ⟨CText.null, CText.null, 800, 600, false⟩).initialTitle ≠
      "untitled" := by
  decide

/-- C5 (amended): when the startup configuration's title field is null,
the window title used by `pw_start_app` defaults to `"PyWire Shell"`:
the initial state carries that title and window creation in `resumed`
uses it. -/
theorem C5_default_title (u : CText) (w : Nat) (h : Int) (cb : Bool)
    (fr : Bool) (parseUrl : String → Option String) :
    (pw_start_app_initial_state ⟨CText.null, u, w, h, cb⟩).initialTitle =
      "PyWire Shell" ∧
    Effect.createWindow "PyWire Shell" w h ∈
      (resumed fr parseUrl
        (pw_start_app_initial_state ⟨CText.null, u, w, h, cb⟩)).2 := by
  constructor
  · rfl
  · rw [resumed, if_neg (by simp [pw_start_app_initial_state])]
    simp [pw_start_app_initial_state, decode_start_title]

/-- C6: when the initial URL does not parse, `resumed` creates the
webview with `about:blank` instead and still reaches the fully
initialised `WindowReady` configuration: `pw_start_app`'s loop setup
does not fail because of the bad URL. -/
theorem C6_bad_url_blank (fr : Bool)
    (parseUrl : String → Option String) (s : AppState)
    (hparse : parseUrl s.initialUrl = none) (hw : s.hasWindow = false) :
    (resumed fr parseUrl s).1.webviewUrl = some "about:blank" ∧
    (resumed fr parseUrl s).1.hasWindow = true ∧
    (resumed fr parseUrl s).1.hasWebview = true := by
  rw [resumed, if_neg (by simp [hw])]
  simp [hparse, pump_servo_state]

/-- C6 (witness). -/
theorem C6_bad_url_blank_witness :
    (resumed false (fun _ => none)
      (pw_start_app_initial_state
        ⟨CText.null, CText.valid "not a url", 800, 600, false⟩)).1.webviewUrl
        = some "about:blank" ∧
    (resumed false (fun _ => none)
      (pw_start_app_initial_state
        ⟨CText.null, CText.valid "not a url", 800, 600, false⟩)).1.hasWindow
        = true ∧
    (resumed false (fun _ => none)
      (pw_start_app_initial_state
        ⟨CText.null, CText.valid "not a url", 800, 600, false⟩)).1.hasWebview
        = true :=
  C6_bad_url_blank false (fun _ => none) _ rfl rfl

/-- C7 (counterexample): handling a single `RedrawRequested` event in a
running state whose repaint-needed flag is set performs two repaints —
one directly and one from the mandatory pump, which takes the still-set
flag — refuting "does not repaint twice within the handling of that
single event". -/
theorem C7_counterexample :
    (window_event false { sampleRunningState with needsRepaint := true }
        WindowEvent.RedrawRequested).2.count Effect.repaint = 2 := by
  decide

/-- C7 (amended): `RedrawRequested` invokes the Render Bridge repaint
directly (without first clearing the repaint-needed flag); when the
flag is clear and the engine signals no new frame the event causes
exactly one repaint, but when the flag was set on entry the mandatory
pump repaints a second time. -/
theorem C7_redraw_repaint (s : AppState) (hs : s.hasServo = true)
    (hc : canRepaint s = true) :
    (s.needsRepaint = false →
      (window_event false s WindowEvent.RedrawRequested).2 =
        [Effect.repaint, Effect.spinEngine]) ∧
    (s.needsRepaint = true →
      (window_event false s WindowEvent.RedrawRequested).2 =
        [Effect.repaint, Effect.spinEngine, Effect.repaint]) := by
  constructor <;>
    intro hnr <;>
    rw [window_event, if_neg (by decide)] <;>
    simp [window_event_effect, repaintEffects, hc, pump_servo,
      notify_new_frame_ready, hs, hnr]

/-- C7 (witness). -/
theorem C7_redraw_repaint_witness :
    (window_event false sampleRunningState
        WindowEvent.RedrawRequested).2 =
      [Effect.repaint, Effect.spinEngine] :=
  (C7_redraw_repaint sampleRunningState rfl (by decide)).1 rfl

/-- C8: after a pointer-move to `(x, y)` and any further processed
events none of which is a pointer-move, a mouse-button event is
forwarded to the engine at exactly `(x, y)` — the position of the most
recently forwarded move — and the stored last-known pointer position is
changed by pointer-move events only. -/
theorem C8_button_at_last_move (s : AppState) (x y : Int) (f g : Bool)
    (trace : List (Bool × LoopEvent))
    (hnm : ∀ p ∈ trace, isCursorMove p.2 = false)
    (st : ElementState) (b : WMouseButton)
    (hw : s.hasWebview = true) :
    (run (window_event f s (WindowEvent.CursorMoved x y)).1
        trace).lastMousePosition = ⟨x, y⟩ ∧
    Effect.notifyInput (InputEvent.MouseButton (buttonAction st)
        (servoButton b) ⟨x, y⟩) ∈
      (window_event g
        (run (window_event f s (WindowEvent.CursorMoved x y)).1 trace)
        (WindowEvent.MouseInput st b)).2 ∧
    (∀ (f' : Bool) (e : LoopEvent), isCursorMove e = false →
      (step f' s e).1.lastMousePosition = s.lastMousePosition) := by
  have hpos :
      (run (window_event f s (WindowEvent.CursorMoved x y)).1
        trace).lastMousePosition = ⟨x, y⟩ := by
    rw [run_lastMouse trace hnm, window_event_cursor_moved]
  have hwv :
      (run (window_event f s (WindowEvent.CursorMoved x y)).1
        trace).hasWebview = true := by
    rw [run_hasWebview, window_event_hasWebview, hw]
  refine ⟨hpos, ?_, fun f' e he => step_lastMouse f' s e he⟩
  have := mouse_input_forwarded g
    (run (window_event f s (WindowEvent.CursorMoved x y)).1 trace)
    st b hwv
  rwa [hpos] at this

/-- C8 (witness). -/
theorem C8_button_at_last_move_witness :
    (run (window_event false sampleRunningState
        (WindowEvent.CursorMoved 3 4)).1
        [(false, LoopEvent.win WindowEvent.RedrawRequested),
         (true, LoopEvent.user UserEvent.Wake)]).lastMousePosition =
      ⟨3, 4⟩ ∧
    Effect.notifyInput (InputEvent.MouseButton
        (buttonAction ElementState.Pressed) (servoButton WMouseButton.Left)
        ⟨3, 4⟩) ∈
      (window_event true
        (run (window_event false sampleRunningState
          (WindowEvent.CursorMoved 3 4)).1
          [(false, LoopEvent.win WindowEvent.RedrawRequested),
           (true, LoopEvent.user UserEvent.Wake)])
        (WindowEvent.MouseInput ElementState.Pressed
          WMouseButton.Left)).2 ∧
    (∀ (f' : Bool) (e : LoopEvent), isCursorMove e = false →
      (step f' sampleRunningState e).1.lastMousePosition =
        sampleRunningState.lastMousePosition) :=
  C8_button_at_last_move sampleRunningState 3 4 false true
    [(false, LoopEvent.win WindowEvent.RedrawRequested),
     (true, LoopEvent.user UserEvent.Wake)]
    (by decide) ElementState.Pressed WMouseButton.Left rfl

/-- C9: a console line that starts with the reserved marker but whose
remainder contains an interior NUL character is silently dropped: the
controller callback is not invoked, whether or not it is registered. -/
theorem C9_nul_payload_dropped (T : String)
    (hT : containsNul T = true) (b : Bool) :
    show_console_message b (PW_MSG_TAG ++ T) = [] := by
  rw [show_console_message_tagged, hT]
  simp

/-- C9 (witness). -/
theorem C9_nul_payload_dropped_witness :
    containsNul (String.singleton (Char.ofNat 0)) = true ∧
    show_console_message true
      (PW_MSG_TAG ++ String.singleton (Char.ofNat 0)) = [] :=
  ⟨by decide,
   C9_nul_payload_dropped (String.singleton (Char.ofNat 0)) (by decide)
     true⟩

/-- C10: the state built by `pw_start_app` stores the origin as the
last-known pointer position, `resumed` leaves it unchanged, and a
mouse-button or wheel event processed after `resumed` but before any
pointer-move is forwarded to the engine at position `(0, 0)`. -/
theorem C10_initial_origin (params : InitParams) (fr f : Bool)
    (parseUrl : String → Option String) (st : ElementState)
    (b : WMouseButton) (d : MouseScrollDelta) :
    (pw_start_app_initial_state params).lastMousePosition =
      DevicePoint.origin ∧
    (resumed fr parseUrl
      (pw_start_app_initial_state params)).1.lastMousePosition =
      DevicePoint.origin ∧
    Effect.notifyInput (InputEvent.MouseButton (buttonAction st)
        (servoButton b) DevicePoint.origin) ∈
      (window_event f
        (resumed fr parseUrl (pw_start_app_initial_state params)).1
        (WindowEvent.MouseInput st b)).2 ∧
    Effect.notifyInput (InputEvent.Wheel (computeWheelDelta d)
        DevicePoint.origin) ∈
      (window_event f
        (resumed fr parseUrl (pw_start_app_initial_state params)).1
        (WindowEvent.MouseWheel d)).2 := by
  have hnw : (pw_start_app_initial_state params).hasWindow = false := rfl
  have hstate :
      (resumed fr parseUrl (pw_start_app_initial_state params)).1 =
        { (pw_start_app_initial_state params) with
            hasWindow := true, hasWindowRenderingContext := true,
            hasOffscreenRenderingContext := true, hasServo := true,
            hasWebview := true,
            webviewUrl := some (match
              parseUrl (pw_start_app_initial_state params).initialUrl with
              | some u => u
              | none => "about:blank"),
            needsRepaint := false } := by
    rw [resumed, if_neg (by simp [hnw])]
    rw [pump_servo_state]
  refine ⟨rfl, ?_, ?_, ?_⟩
  · rw [hstate]; rfl
  · rw [hstate, window_event, if_neg (by simp)]
    simp [window_event_effect, pw_start_app_initial_state]
  · rw [hstate, window_event, if_neg (by simp)]
    simp [window_event_effect, pw_start_app_initial_state]

end PyWire
